import Mathlib

/-!
Shallow embedding of the WebXR demo application in `src/app.js` (class `App`),
covering the locomotion / fallback-input state machine described by the spec.

Conventions:
- 3D coordinates are rationals (`ℚ`); the source uses JS numbers only for
  positions, small constants and elapsed times, and every claim is about exact
  comparisons against the constants 1.3, 2 and 0.1, so `ℚ` is faithful.
- Event-driven state (controller handles, the fallback flag, the timeout
  timer) is modelled as an explicit state record plus a step function; the
  step function's branches are the event listeners registered in
  `App.setupXR` (`onSelectStart`, `onSelectEnd`, `onConnected`) together with
  the JS timer semantics of `setTimeout` / `clearTimeout` (a timer fires at
  most once, and never after `clearTimeout`).
- `src/app.js` is truncated at line 203, in the middle of `App.moveDolly`
  (the file ends with `this.dolly.quaternion.copy(this.dummyCam`). The
  movement-and-clamp tail of `moveDolly` is therefore modelled from the spec
  where noted; everything else is translated from the visible source.
-/

/-- A 3D vector with rational coordinates (embeds `THREE.Vector3` as used by
the dolly position and the derived forward direction). -/
structure Vec3 where
  x : ℚ
  y : ℚ
  z : ℚ
  deriving Repr, DecidableEq

/-- The boundary limit: `const wallLimit = 1.3;` in `App.moveDolly`
(src/app.js line 196). -/
def wallLimit : ℚ := 13/10

/-- The movement speed: `const speed = 2;` in `App.moveDolly`
(src/app.js line 197). -/
def speed : ℚ := 2

/-- One controller handle, as configured by `App.buildControllers`: the only
field of `controller.userData` the module uses is `selectPressed`
(src/app.js line 181 initialises it to `false`). -/
structure ControllerH where
  selectPressed : Bool
  deriving Repr, DecidableEq

/-- Objects of the scene graph that the module passes to collaborators by
reference; used to record which reference frame a `GazeController` instance
was bound to at construction. -/
inductive ObjRef where
  | scene
  | dummyCam
  | dolly
  | camera
  deriving Repr, DecidableEq

/-- The constructor arguments of one `GazeController` instance
(`new GazeController(self.scene, self.dummyCam)`, src/app.js line 140). -/
structure GazeBinding where
  sceneRef : ObjRef
  camRef : ObjRef
  deriving Repr, DecidableEq

/-- The application state relevant to the claims: the collision-proxy
reference guarding `moveDolly` (never assigned anywhere in the module, hence
`Option`), the dolly position, the fallback flag `useGaze`, whether the
`setTimeout` timer armed in `setupXR` is still pending, the list of
`GazeController` instances created so far (with their constructor arguments),
and the controller handles. -/
structure AppState where
  proxy : Option Unit
  dollyPos : Vec3
  useGaze : Bool
  timerArmed : Bool
  gazeControllers : List GazeBinding
  controllers : List ControllerH
  deriving Repr, DecidableEq

/-- The state established by the `App` constructor (src/app.js lines 12-65):
`this.dolly.position.set(0, 0, 10)`; `this.proxy` and `this.useGaze` are
never assigned there (JS `undefined`, i.e. absent / falsy); no timer is armed
and no controllers or gaze controllers exist yet. -/
def init : AppState :=
  { proxy := none
    dollyPos := ⟨0, 0, 10⟩
    useGaze := false
    timerArmed := false
    gazeControllers := []
    controllers := [] }

/-- `App.buildControllers` (src/app.js lines 168-191): the loop
`for (let i = 0; i <= 1; i++)` obtains `renderer.xr.getController(i)` for
`i = 0, 1`, sets `controller.userData.selectPressed = false` on each, and
returns the two handles, regardless of how many physical devices exist. -/
def buildControllers : List ControllerH :=
  [{ selectPressed := false }, { selectPressed := false }]

/-- `App.setupXR` (src/app.js lines 119-166): arms the 2000 ms timeout timer
(`setTimeout(connectionTimeout, 2000)`) and stores
`this.controllers = this.buildControllers(this.dolly)`; the event listeners
it registers are embedded by `step` below. -/
def setupXR (s : AppState) : AppState :=
  { s with timerArmed := true, controllers := buildControllers }

/-- The events the module reacts to after `setupXR`: the three listeners
registered per controller handle (`selectstart`, `selectend`, `connected`),
the firing of the `setTimeout` timer, and a controller `disconnected` event
(for which the module registers no listener). Handle indices are `Fin 2`
because exactly two handles carry listeners. -/
inductive XREvent where
  | selectStart (i : Fin 2)
  | selectEnd (i : Fin 2)
  | connected (i : Fin 2)
  | disconnected (i : Fin 2)
  | timeout
  deriving Repr, DecidableEq

/-- The event dispatch of `App.setupXR` (src/app.js lines 126-149):
`onSelectStart` sets `this.userData.selectPressed = true` on the receiving
handle; `onSelectEnd` sets it to `false`; `onConnected` runs
`clearTimeout(timeoutId)`; `connectionTimeout` (the timer callback, runnable
only while the timer is still pending, per JS timer semantics) sets
`self.useGaze = true` and constructs
`new GazeController(self.scene, self.dummyCam)`; a `disconnected` event has
no registered listener and changes nothing. -/
def step (s : AppState) (e : XREvent) : AppState :=
  match e with
  | .selectStart i => { s with controllers := s.controllers.set i { selectPressed := true } }
  | .selectEnd i => { s with controllers := s.controllers.set i { selectPressed := false } }
  | .connected _ => { s with timerArmed := false }
  | .disconnected _ => s
  | .timeout =>
      if s.timerArmed then
        { s with timerArmed := false
                 useGaze := true
                 gazeControllers := s.gazeControllers ++ [⟨.scene, .dummyCam⟩] }
      else s

/-- A timestamped event: time in milliseconds since `setupXR` completed,
paired with the event delivered to the single-threaded event loop. -/
abbrev TimedEvent : Type := ℕ × XREvent

/-- Runs a list of timestamped events through the event dispatch from a given
state (the event loop executes one callback at a time, in list order). -/
def runFrom (s : AppState) (tr : List TimedEvent) : AppState :=
  tr.foldl (fun a p => step a p.2) s

/-- Runs a trace of timestamped events from the state reached right after
`setupXR` completes in the program's construction sequence. -/
def runXR (tr : List TimedEvent) : AppState :=
  runFrom (setupXR init) tr

/-- Timestamps are non-decreasing along the trace (the event loop delivers
callbacks in time order). -/
abbrev chron (tr : List TimedEvent) : Prop :=
  tr.Pairwise (fun a b => a.1 ≤ b.1)

/-- A `setTimeout(connectionTimeout, 2000)` callback never runs earlier than
its 2000 ms delay. -/
abbrev timeoutsLate (tr : List TimedEvent) : Prop :=
  ∀ p ∈ tr, p.2 = XREvent.timeout → 2000 ≤ p.1

/-- Whether an event is a `connected` signal on some handle. -/
def isConnectedEv : XREvent → Prop
  | .connected _ => True
  | _ => False

instance : DecidablePred isConnectedEv := by
  intro e
  cases e <;> simp [ isConnectedEv] <;> infer_instance

/-- `if (controller.userData.selectPressed) ...` over both handles: some
controller handle currently reports its select trigger held. -/
def anySelectPressed (s : AppState) : Bool :=
  s.controllers.any (fun c => c.selectPressed)

/-- Modelled from the spec: the selection condition of the per-frame update.
The tail of `App.moveDolly` after src/app.js line 203 is missing (the file is
truncated); per spec section 4.1 the update moves while a handle's select is
held, and in fallback mode the selection signal is the Fallback Pointer
Provider's opaque dwell/gaze trigger, passed here as the boolean `g`. -/
def movePressed (s : AppState) (g : Bool) : Bool :=
  anySelectPressed s || (s.useGaze && g)

/-- Clamp one horizontal coordinate to the symmetric wall limit. Modelled
from the spec: the clamping code is in the truncated tail of
`App.moveDolly`; spec section 4.1 says movement that would cross the ±1.3
limit is held at the boundary on the offending axis. -/
def clampW (v : ℚ) : ℚ :=
  max (-wallLimit) (min wallLimit v)

/-- `App.moveDolly(dt)` (src/app.js lines 193-203 plus the truncated tail).
From the visible source: `if (this.proxy === undefined) return;` (line 194),
`wallLimit = 1.3`, `speed = 2`. Modelled from the spec (the movement and
clamp tail after line 203 is missing from src/app.js): while the selection
signal is held, the dolly advances along the forward direction `dir`
(derived externally from the head-tracking frame's orientation) by
`speed * dt` on the horizontal plane, and the resulting position is clamped
to the ±`wallLimit` boundary on each horizontal axis; the dolly's net
orientation is restored before returning, so only the position changes. -/
def moveDolly (s : AppState) (dir : Vec3) (g : Bool) (dt : ℚ) : AppState :=
  match s.proxy with
  | none => s
  | some _ =>
      if movePressed s g then
        { s with dollyPos :=
            ⟨clampW (s.dollyPos.x + dir.x * (speed * dt)),
             s.dollyPos.y,
             clampW (s.dollyPos.z + dir.z * (speed * dt))⟩ }
      else s

/-- One frame's external input to `moveDolly`: the forward direction derived
from the head-tracking frame, the fallback gaze trigger, and the elapsed
time `dt`. -/
structure FrameInput where
  dir : Vec3
  gaze : Bool
  dt : ℚ

/-- Runs a sequence of per-frame updates. -/
def runFrames (s : AppState) (ins : List FrameInput) : AppState :=
  ins.foldl (fun a f => moveDolly a f.dir f.gaze f.dt) s

/-- The startup outcome space for C8: whether each chained asset load
succeeds (the three glTF models of `App.loadModels`, lines 97-117, and the
HDR environment of `App.setEnvironment`, lines 67-81). -/
structure LoadOutcome where
  model1Ok : Bool
  model2Ok : Bool
  model3Ok : Bool
  hdrOk : Bool
  deriving Repr, DecidableEq

/-- Which observable startup steps ran: the models added to the scene, whether
`setupXR` was reached (it registers the animation loop via
`renderer.setAnimationLoop`, line 165), whether the environment map was set,
and the `console.error` messages emitted by application code. -/
structure LoadResult where
  modelsAdded : List ℕ
  setupXRCalled : Bool
  animationLoopSet : Bool
  envSet : Bool
  errorsLogged : List String
  deriving Repr, DecidableEq

/-- The application's startup sequencing (constructor calls `setEnvironment`
then `loadModels`). `App.loadModels` chains each load inside the previous
load's success callback and passes no error callback to `loader.load`, so a
failed model load runs no application code and the chain stops; only a
successful model3 load reaches `self.setupXR()`. `App.setEnvironment` logs
`console.error('An error occurred setting the environment')` on failure and
sets `scene.environment` on success; the model chain does not depend on it. -/
def appStartup (o : LoadOutcome) : LoadResult :=
  let envSet := o.hdrOk
  let envLog : List String :=
    if o.hdrOk then [] else ["An error occurred setting the environment"]
  if o.model1Ok then
    if o.model2Ok then
      if o.model3Ok then
        { modelsAdded := [1, 2, 3], setupXRCalled := true, animationLoopSet := true
          envSet := envSet, errorsLogged := envLog }
      else
        { modelsAdded := [1, 2], setupXRCalled := false, animationLoopSet := false
          envSet := envSet, errorsLogged := envLog }
    else
      { modelsAdded := [1], setupXRCalled := false, animationLoopSet := false
        envSet := envSet, errorsLogged := envLog }
  else
    { modelsAdded := [], setupXRCalled := false, animationLoopSet := false
      envSet := envSet, errorsLogged := envLog }

/-- The module's operations, for reachability statements: the one-time XR
setup, event-loop callbacks, and per-frame updates. -/
inductive AppOp where
  | setup
  | xrEvent (e : XREvent)
  | frame (dir : Vec3) (g : Bool) (dt : ℚ)

/-- Applies one operation to the application state. -/
def applyOp (s : AppState) (op : AppOp) : AppState :=
  match op with
  | .setup => setupXR s
  | .xrEvent e => step s e
  | .frame dir g dt => moveDolly s dir g dt

/-- Every state the program can reach from construction onward. -/
def runOps (ops : List AppOp) : AppState :=
  ops.foldl applyOp init

lemma step_proxy (s : AppState) (e : XREvent) : (step s e).proxy = s.proxy := by
  cases e <;> simp only [step] <;> try rfl
  split <;> rfl

lemma step_dollyPos (s : AppState) (e : XREvent) : (step s e).dollyPos = s.dollyPos := by
  cases e <;> simp only [step] <;> try rfl
  split <;> rfl

lemma moveDolly_proxy (s : AppState) (dir : Vec3) (g : Bool) (dt : ℚ) :
    (moveDolly s dir g dt).proxy = s.proxy := by
  cases h : s.proxy with
  | none => simp only [moveDolly, h]
  | some v =>
      simp only [moveDolly, h]
      split
      · rfl
      · exact h

lemma moveDolly_none (s : AppState) (dir : Vec3) (g : Bool) (dt : ℚ)
    (h : s.proxy = none) : moveDolly s dir g dt = s := by
  simp only [moveDolly, h]

lemma step_disarmed (s : AppState) (e : XREvent) (h : s.timerArmed = false) :
    (step s e).timerArmed = false ∧ (step s e).useGaze = s.useGaze ∧
      (step s e).gazeControllers = s.gazeControllers := by
  cases e <;> simp [step, h]

lemma runFrom_disarmed (tr : List TimedEvent) (s : AppState) (h : s.timerArmed = false) :
    (runFrom s tr).timerArmed = false ∧ (runFrom s tr).useGaze = s.useGaze ∧
      (runFrom s tr).gazeControllers = s.gazeControllers := by
  induction tr generalizing s with
  | nil => exact ⟨h, rfl, rfl⟩
  | cons p tl ih =>
      obtain ⟨h1, h2, h3⟩ := step_disarmed s p.2 h
      obtain ⟨g1, g2, g3⟩ := ih (step s p.2) h1
      exact ⟨g1, g2.trans h2, g3.trans h3⟩

lemma step_no_timeout (s : AppState) (e : XREvent) (h : e ≠ XREvent.timeout) :
    (step s e).useGaze = s.useGaze ∧ (step s e).gazeControllers = s.gazeControllers := by
  cases e <;> simp [step] at h ⊢

lemma runFrom_no_timeout (tr : List TimedEvent) (s : AppState)
    (h : ∀ p ∈ tr, p.2 ≠ XREvent.timeout) :
    (runFrom s tr).useGaze = s.useGaze ∧
      (runFrom s tr).gazeControllers = s.gazeControllers := by
  induction tr generalizing s with
  | nil => exact ⟨rfl, rfl⟩
  | cons p tl ih =>
      obtain ⟨h1, h2⟩ := step_no_timeout s p.2 (h p (List.mem_cons_self p tl))
      obtain ⟨g1, g2⟩ := ih (step s p.2) (fun q hq => h q (List.mem_cons_of_mem p hq))
      exact ⟨g1.trans h1, g2.trans h2⟩

lemma step_quiet (s : AppState) (e : XREvent) (h1 : e ≠ XREvent.timeout)
    (h2 : ¬ isConnectedEv e) : (step s e).timerArmed = s.timerArmed := by
  cases e <;> simp [step, isConnectedEv] at h1 h2 ⊢

lemma runFrom_quiet (tr : List TimedEvent) (s : AppState)
    (h : ∀ p ∈ tr, p.2 ≠ XREvent.timeout ∧ ¬ isConnectedEv p.2) :
    (runFrom s tr).timerArmed = s.timerArmed := by
  induction tr generalizing s with
  | nil => rfl
  | cons p tl ih =>
      have hp := h p (List.mem_cons_self p tl)
      have := step_quiet s p.2 hp.1 hp.2
      exact (ih (step s p.2) (fun q hq => h q (List.mem_cons_of_mem p hq))).trans this

lemma neg_wallLimit_le : -wallLimit ≤ wallLimit := by norm_num [wallLimit]

lemma abs_clampW_le (v : ℚ) : |clampW v| ≤ wallLimit := by
  rw [abs_le]
  exact ⟨le_max_left _ _, max_le neg_wallLimit_le (min_le_left _ _)⟩

lemma clampW_high (v : ℚ) (h : wallLimit < v) : clampW v = wallLimit := by
  unfold clampW
  rw [min_eq_left h.le, max_eq_right neg_wallLimit_le]

lemma clampW_low (v : ℚ) (h : v < -wallLimit) : clampW v = -wallLimit := by
  unfold clampW
  rw [min_eq_right (h.le.trans neg_wallLimit_le), max_eq_left h.le]

lemma moveDolly_some_pressed (s : AppState) (dir : Vec3) (g : Bool) (dt : ℚ)
    (hp : s.proxy.isSome = true) (hm : movePressed s g = true) :
    (moveDolly s dir g dt).dollyPos =
      ⟨clampW (s.dollyPos.x + dir.x * (speed * dt)), s.dollyPos.y,
       clampW (s.dollyPos.z + dir.z * (speed * dt))⟩ := by
  cases h : s.proxy with
  | none => rw [h] at hp; simp at hp
  | some v => simp [moveDolly, h, hm]

lemma moveDolly_inBounds (s : AppState) (dir : Vec3) (g : Bool) (dt : ℚ)
    (hx : |s.dollyPos.x| ≤ wallLimit) (hz : |s.dollyPos.z| ≤ wallLimit) :
    |(moveDolly s dir g dt).dollyPos.x| ≤ wallLimit ∧
      |(moveDolly s dir g dt).dollyPos.z| ≤ wallLimit := by
  cases h : s.proxy with
  | none => rw [moveDolly_none s dir g dt h]; exact ⟨hx, hz⟩
  | some v =>
      simp only [moveDolly, h]
      split
      · exact ⟨abs_clampW_le _, abs_clampW_le _⟩
      · exact ⟨hx, hz⟩

lemma runFrames_inBounds (ins : List FrameInput) (s : AppState)
    (hx : |s.dollyPos.x| ≤ wallLimit) (hz : |s.dollyPos.z| ≤ wallLimit) :
    |(runFrames s ins).dollyPos.x| ≤ wallLimit ∧
      |(runFrames s ins).dollyPos.z| ≤ wallLimit := by
  induction ins generalizing s with
  | nil => exact ⟨hx, hz⟩
  | cons f tl ih =>
      obtain ⟨h1, h2⟩ := moveDolly_inBounds s f.dir f.gaze f.dt hx hz
      exact ih (moveDolly s f.dir f.gaze f.dt) h1 h2

/-- C1: starting from a horizontal position within the ±1.3 boundary, every
sequence of per-frame updates keeps the dolly's horizontal position at
`|x| ≤ 1.3` and `|z| ≤ 1.3` after each update; and an update whose movement
would cross the 1.3 limit holds the position exactly at the boundary on the
offending axis (it is not reflected past it). -/
theorem boundary_invariant_holds (s : AppState) (ins : List FrameInput)
    (hx : |s.dollyPos.x| ≤ wallLimit) (hz : |s.dollyPos.z| ≤ wallLimit) :
    (∀ n : ℕ, |(runFrames s (ins.take n)).dollyPos.x| ≤ wallLimit ∧
        |(runFrames s (ins.take n)).dollyPos.z| ≤ wallLimit) ∧
    (∀ f : FrameInput, s.proxy.isSome = true → movePressed s f.gaze = true →
      (wallLimit < s.dollyPos.x + f.dir.x * (speed * f.dt) →
        (moveDolly s f.dir f.gaze f.dt).dollyPos.x = wallLimit) ∧
      (s.dollyPos.x + f.dir.x * (speed * f.dt) < -wallLimit →
        (moveDolly s f.dir f.gaze f.dt).dollyPos.x = -wallLimit) ∧
      (wallLimit < s.dollyPos.z + f.dir.z * (speed * f.dt) →
        (moveDolly s f.dir f.gaze f.dt).dollyPos.z = wallLimit) ∧
      (s.dollyPos.z + f.dir.z * (speed * f.dt) < -wallLimit →
        (moveDolly s f.dir f.gaze f.dt).dollyPos.z = -wallLimit)) := by
  constructor
  · intro n
    exact runFrames_inBounds (ins.take n) s hx hz
  · intro f hp hm
    have hpos := moveDolly_some_pressed s f.dir f.gaze f.dt hp hm
    refine ⟨?_, ?_, ?_, ?_⟩ <;> intro hlim <;> rw [hpos]
    · exact clampW_high _ hlim
    · exact clampW_low _ hlim
    · exact clampW_high _ hlim
    · exact clampW_low _ hlim

/-- Witness for C1 at a concrete in-bounds start and a one-frame sequence. -/
theorem boundary_invariant_holds_witness :
    (|(AppState.mk (some ()) ⟨0, 0, 0⟩ false false [] [⟨true⟩]).dollyPos.x| ≤ wallLimit) ∧
    (|(AppState.mk (some ()) ⟨0, 0, 0⟩ false false [] [⟨true⟩]).dollyPos.z| ≤ wallLimit) ∧
    ((∀ n : ℕ, |(runFrames (AppState.mk (some ()) ⟨0, 0, 0⟩ false false [] [⟨true⟩])
          (([⟨⟨0, 0, -1⟩, false, 1⟩] : List FrameInput).take n)).dollyPos.x| ≤ wallLimit ∧
        |(runFrames (AppState.mk (some ()) ⟨0, 0, 0⟩ false false [] [⟨true⟩])
          (([⟨⟨0, 0, -1⟩, false, 1⟩] : List FrameInput).take n)).dollyPos.z| ≤ wallLimit) ∧
      (∀ f : FrameInput,
        (AppState.mk (some ()) ⟨0, 0, 0⟩ false false [] [⟨true⟩]).proxy.isSome = true →
        movePressed (AppState.mk (some ()) ⟨0, 0, 0⟩ false false [] [⟨true⟩]) f.gaze = true →
        (wallLimit < (AppState.mk (some ()) ⟨0, 0, 0⟩ false false [] [⟨true⟩]).dollyPos.x +
            f.dir.x * (speed * f.dt) →
          (moveDolly (AppState.mk (some ()) ⟨0, 0, 0⟩ false false [] [⟨true⟩])
            f.dir f.gaze f.dt).dollyPos.x = wallLimit) ∧
        ((AppState.mk (some ()) ⟨0, 0, 0⟩ false false [] [⟨true⟩]).dollyPos.x +
            f.dir.x * (speed * f.dt) < -wallLimit →
          (moveDolly (AppState.mk (some ()) ⟨0, 0, 0⟩ false false [] [⟨true⟩])
            f.dir f.gaze f.dt).dollyPos.x = -wallLimit) ∧
        (wallLimit < (AppState.mk (some ()) ⟨0, 0, 0⟩ false false [] [⟨true⟩]).dollyPos.z +
            f.dir.z * (speed * f.dt) →
          (moveDolly (AppState.mk (some ()) ⟨0, 0, 0⟩ false false [] [⟨true⟩])
            f.dir f.gaze f.dt).dollyPos.z = wallLimit) ∧
        ((AppState.mk (some ()) ⟨0, 0, 0⟩ false false [] [⟨true⟩]).dollyPos.z +
            f.dir.z * (speed * f.dt) < -wallLimit →
          (moveDolly (AppState.mk (some ()) ⟨0, 0, 0⟩ false false [] [⟨true⟩])
            f.dir f.gaze f.dt).dollyPos.z = -wallLimit))) :=
  ⟨by show |(0 : ℚ)| ≤ wallLimit; norm_num [wallLimit],
   by show |(0 : ℚ)| ≤ wallLimit; norm_num [wallLimit],
   boundary_invariant_holds (AppState.mk (some ()) ⟨0, 0, 0⟩ false false [] [⟨true⟩])
      [⟨⟨0, 0, -1⟩, false, 1⟩]
      (by show |(0 : ℚ)| ≤ wallLimit; norm_num [wallLimit])
      (by show |(0 : ℚ)| ≤ wallLimit; norm_num [wallLimit])⟩

/-- A state the program actually reaches: right after `setupXR`, handle 0
receives `selectstart`; `this.proxy` is still unassigned (it never is). -/
def pressedNoProxy : AppState := step (setupXR init) (XREvent.selectStart 0)

/-- C2 counterexample: in a reachable state where handle 0 reports
`selectPressed = true` and `dt = 0.1 > 0`, the per-frame update leaves the
entire state unchanged — the dolly does not advance by `speed * dt` — because
`moveDolly` returns at the `this.proxy === undefined` guard (src/app.js line
194) and `this.proxy` is never assigned anywhere in the module. -/
theorem forward_advance_fails_without_proxy :
    anySelectPressed pressedNoProxy = true ∧
    (0 : ℚ) < 1/10 ∧
    moveDolly pressedNoProxy ⟨0, 0, -1⟩ false (1/10) = pressedNoProxy ∧
    pressedNoProxy.dollyPos.z ≠
      pressedNoProxy.dollyPos.z + (-1) * (speed * (1/10)) := by
  refine ⟨rfl, by norm_num, rfl, ?_⟩
  show (10 : ℚ) ≠ 10 + (-1) * (speed * (1/10))
  norm_num [speed]

/-- C2 (amended): in a per-frame update with `dt > 0` where the proxy guard
passes (`this.proxy` defined — which never happens in the program as given)
and some controller handle has `selectPressed = true`, the dolly position
advances along the forward direction by `speed * dt` on each horizontal
axis, subject to the boundary clamp. -/
theorem forward_advance_with_proxy (s : AppState) (dir : Vec3) (g : Bool) (dt : ℚ)
    (hp : s.proxy.isSome = true) (hsel : anySelectPressed s = true) (hdt : 0 < dt) :
    (moveDolly s dir g dt).dollyPos =
      ⟨clampW (s.dollyPos.x + dir.x * (speed * dt)), s.dollyPos.y,
       clampW (s.dollyPos.z + dir.z * (speed * dt))⟩ := by
  have hm : movePressed s g = true := by simp [movePressed, hsel]
  exact moveDolly_some_pressed s dir g dt hp hm

/-- Witness for the amended C2: with a pressed handle, a proxy reference,
forward direction `(0, 0, -1)` and `dt = 0.1`, the update moves the dolly
exactly `speed * dt = 0.2` units forward (to `z = -1/5`), within bounds so
the clamp leaves it unchanged. -/
theorem forward_advance_with_proxy_witness :
    ((AppState.mk (some ()) ⟨0, 0, 0⟩ false false [] [⟨true⟩, ⟨false⟩]).proxy.isSome = true) ∧
    (anySelectPressed (AppState.mk (some ()) ⟨0, 0, 0⟩ false false [] [⟨true⟩, ⟨false⟩]) = true) ∧
    ((0 : ℚ) < 1/10) ∧
    ((moveDolly (AppState.mk (some ()) ⟨0, 0, 0⟩ false false [] [⟨true⟩, ⟨false⟩])
        ⟨0, 0, -1⟩ false (1/10)).dollyPos =
      ⟨clampW (0 + 0 * (speed * (1/10))), 0, clampW (0 + (-1) * (speed * (1/10)))⟩) ∧
    clampW (0 + (-1) * (speed * (1/10))) = -(1/5) :=
  ⟨rfl, rfl, by norm_num,
   forward_advance_with_proxy (AppState.mk (some ()) ⟨0, 0, 0⟩ false false [] [⟨true⟩, ⟨false⟩])
     ⟨0, 0, -1⟩ false (1/10) rfl rfl (by norm_num),
   by rw [show (0 + (-1) * (speed * (1/10)) : ℚ) = -(1/5) by norm_num [speed]]
      unfold clampW wallLimit
      rw [min_eq_right (by norm_num), max_eq_right (by norm_num)]⟩

/-- C7: `moveDolly` is a no-op — it returns with the whole application state
unchanged — when the proxy reference that its pre-setup guard checks
(`if (this.proxy === undefined) return;`, src/app.js line 194) is unset. -/
theorem moveDolly_noop_without_proxy (s : AppState) (dir : Vec3) (g : Bool) (dt : ℚ)
    (h : s.proxy = none) : moveDolly s dir g dt = s :=
  moveDolly_none s dir g dt h

/-- Witness for C7 at the constructed initial state. -/
theorem moveDolly_noop_without_proxy_witness :
    init.proxy = none ∧ moveDolly init ⟨0, 0, -1⟩ false 1 = init :=
  ⟨rfl, moveDolly_noop_without_proxy init ⟨0, 0, -1⟩ false 1 rfl⟩

lemma applyOp_proxy (s : AppState) (op : AppOp) : (applyOp s op).proxy = s.proxy := by
  cases op with
  | setup => rfl
  | xrEvent e => exact step_proxy s e
  | frame dir g dt => exact moveDolly_proxy s dir g dt

lemma foldl_applyOp_proxy (ops : List AppOp) (s : AppState) :
    (ops.foldl applyOp s).proxy = s.proxy := by
  induction ops generalizing s with
  | nil => rfl
  | cons op tl ih => exact (ih (applyOp s op)).trans (applyOp_proxy s op)

/-- C9: no operation of the module ever assigns `this.proxy`, so every state
the program reaches still has it unset, and therefore every invocation of
`moveDolly` returns at the guard and leaves the entire application state
(dolly position included) unchanged. -/
theorem moveDolly_always_noop (ops : List AppOp) (dir : Vec3) (g : Bool) (dt : ℚ) :
    (runOps ops).proxy = none ∧ moveDolly (runOps ops) dir g dt = runOps ops := by
  have hp : (runOps ops).proxy = none := foldl_applyOp_proxy ops init
  exact ⟨hp, moveDolly_none (runOps ops) dir g dt hp⟩

/-- C10: the constructor places the dolly at `(0, 0, 10)`
(`this.dolly.position.set(0, 0, 10)`, src/app.js line 23), whose `z`
coordinate violates the ±1.3 horizontal boundary condition that the spec's
boundary invariant assumes as its starting hypothesis. -/
theorem initial_position_out_of_bounds :
    init.dollyPos = ⟨0, 0, 10⟩ ∧ ¬ (|init.dollyPos.z| ≤ wallLimit) :=
  ⟨rfl, by show ¬ (|(10 : ℚ)| ≤ wallLimit); norm_num [wallLimit]⟩

lemma step_timeout_armed (s : AppState) (h : s.timerArmed = true) :
    (step s XREvent.timeout).timerArmed = false ∧
    (step s XREvent.timeout).useGaze = true ∧
    (step s XREvent.timeout).gazeControllers =
      s.gazeControllers ++ [⟨ObjRef.scene, ObjRef.dummyCam⟩] := by
  simp [step, h]

lemma runFrom_append (s : AppState) (l1 l2 : List TimedEvent) :
    runFrom s (l1 ++ l2) = runFrom (runFrom s l1) l2 := by
  simp [runFrom]

/-- C3: if the timeout callback runs with no `connected` signal having
arrived before it (and no earlier timer firing — the timer is armed once),
then `useGaze` is false on every prefix of the trace up to the timeout and
true on every prefix past it (a single false→true transition), and exactly
one `GazeController` instance exists at the end of the trace, constructed
with the scene and the head-tracking `dummyCam` reference frame — no matter
what events (including later `connected` signals) follow. -/
theorem gaze_fallback_on_timeout (pre post : List TimedEvent) (tt : ℕ)
    (htt : 2000 ≤ tt)
    (hpre : ∀ p ∈ pre, p.2 ≠ XREvent.timeout ∧ ¬ isConnectedEv p.2) :
    (∀ n : ℕ, (runXR ((pre ++ (tt, XREvent.timeout) :: post).take n)).useGaze =
        decide (pre.length < n)) ∧
    (runXR (pre ++ (tt, XREvent.timeout) :: post)).gazeControllers =
      [⟨ObjRef.scene, ObjRef.dummyCam⟩] := by
  have hA_timer : (runFrom (setupXR init) pre).timerArmed = true :=
    (runFrom_quiet pre (setupXR init) hpre).trans rfl
  have hA_ng := runFrom_no_timeout pre (setupXR init) (fun p hp => (hpre p hp).1)
  have hA_gaze : (runFrom (setupXR init) pre).useGaze = false := hA_ng.1.trans rfl
  have hA_list : (runFrom (setupXR init) pre).gazeControllers = [] := hA_ng.2.trans rfl
  obtain ⟨hB_timer, hB_flag, hB_list⟩ :=
    step_timeout_armed (runFrom (setupXR init) pre) hA_timer
  constructor
  · intro n
    rcases Nat.lt_or_ge pre.length n with hn | hn
    · have hd : decide (pre.length < n) = true := by simp [hn]
      rw [hd]
      have h1 : (pre ++ (tt, XREvent.timeout) :: post).take n =
          pre ++ (tt, XREvent.timeout) :: post.take (n - pre.length - 1) := by
        rw [List.take_append_eq_append_take, List.take_of_length_le (by omega)]
        obtain ⟨k, hk⟩ : ∃ k, n - pre.length = k + 1 := ⟨n - pre.length - 1, by omega⟩
        rw [hk, List.take_succ_cons]
        have hkk : k = n - pre.length - 1 := by omega
        simp [hkk]
      rw [h1, runXR, runFrom_append]
      have h2 : runFrom (runFrom (setupXR init) pre)
            ((tt, XREvent.timeout) :: post.take (n - pre.length - 1)) =
          runFrom (step (runFrom (setupXR init) pre) XREvent.timeout)
            (post.take (n - pre.length - 1)) := rfl
      rw [h2]
      exact ((runFrom_disarmed _ _ hB_timer).2.1).trans hB_flag
    · have hd : decide (pre.length < n) = false := by simp; omega
      rw [hd]
      rw [List.take_append_of_le_length hn, runXR]
      have hsub : ∀ p ∈ pre.take n, p.2 ≠ XREvent.timeout :=
        fun p hp => (hpre p (List.take_subset n pre hp)).1
      exact ((runFrom_no_timeout (pre.take n) (setupXR init) hsub).1).trans rfl
  · rw [runXR, runFrom_append]
    have h2 : runFrom (runFrom (setupXR init) pre) ((tt, XREvent.timeout) :: post) =
        runFrom (step (runFrom (setupXR init) pre) XREvent.timeout) post := rfl
    rw [h2]
    rw [(runFrom_disarmed post _ hB_timer).2.2, hB_list, hA_list]
    rfl

/-- Witness for C3: one non-connected event at 100 ms, the timer fires at
2000 ms, then handle 1 connects late at 2500 ms; the flag flips exactly at
the timeout and one dummyCam-bound `GazeController` exists at the end. -/
theorem gaze_fallback_on_timeout_witness :
    (2000 ≤ 2000) ∧
    (∀ p ∈ ([((100 : ℕ), XREvent.selectStart 0)] : List TimedEvent),
      p.2 ≠ XREvent.timeout ∧ ¬ isConnectedEv p.2) ∧
    ((∀ n : ℕ, (runXR ((([((100 : ℕ), XREvent.selectStart 0)] : List TimedEvent) ++
          ((2000 : ℕ), XREvent.timeout) ::
            [((2500 : ℕ), XREvent.connected 1)]).take n)).useGaze =
        decide (([((100 : ℕ), XREvent.selectStart 0)] : List TimedEvent).length < n)) ∧
      (runXR (([((100 : ℕ), XREvent.selectStart 0)] : List TimedEvent) ++
          ((2000 : ℕ), XREvent.timeout) :: [((2500 : ℕ), XREvent.connected 1)])).gazeControllers =
        [⟨ObjRef.scene, ObjRef.dummyCam⟩]) :=
  ⟨le_refl 2000, by decide,
    gaze_fallback_on_timeout [((100 : ℕ), XREvent.selectStart 0)]
      [((2500 : ℕ), XREvent.connected 1)] 2000 (le_refl 2000) (by decide)⟩

lemma take_append_cons_of_lt {α : Type} (l1 l2 : List α) (x : α) (n : ℕ)
    (h : l1.length < n) :
    (l1 ++ x :: l2).take n = l1 ++ x :: l2.take (n - l1.length - 1) := by
  rw [List.take_append_eq_append_take, List.take_of_length_le (by omega)]
  obtain ⟨k, hk⟩ : ∃ k, n - l1.length = k + 1 := ⟨n - l1.length - 1, by omega⟩
  rw [hk, List.take_succ_cons]
  have hkk : k = n - l1.length - 1 := by omega
  simp [hkk]

/-- C4: if a `connected` signal arrives on some handle at time `t < 2000` ms
(necessarily before the timeout callback, which cannot run before 2000 ms),
then right after that signal the timeout timer is cancelled, and for the
whole rest of the trace — whatever later events occur, disconnects included —
`useGaze` stays false and no `GazeController` is ever created. -/
theorem connected_cancels_timeout (pre post : List TimedEvent) (t : ℕ) (i : Fin 2)
    (hch : chron (pre ++ (t, XREvent.connected i) :: post))
    (hto : timeoutsLate (pre ++ (t, XREvent.connected i) :: post))
    (ht : t < 2000) :
    (runXR (pre ++ [(t, XREvent.connected i)])).timerArmed = false ∧
    (∀ n : ℕ, (runXR ((pre ++ (t, XREvent.connected i) :: post).take n)).useGaze = false) ∧
    (runXR (pre ++ (t, XREvent.connected i) :: post)).gazeControllers = [] := by
  have hch2 : (pre ++ (t, XREvent.connected i) :: post).Pairwise
      (fun a b => a.1 ≤ b.1) := hch
  have hcross : ∀ a ∈ pre, a.1 ≤ t := by
    intro a ha
    exact (List.pairwise_append.mp hch2).2.2 a ha (t, XREvent.connected i)
      (List.mem_cons_self _ _)
  have hpreNoTO : ∀ p ∈ pre, p.2 ≠ XREvent.timeout := by
    intro p hp hpt
    have h2000 := hto p (List.mem_append_left _ hp) hpt
    have := hcross p hp
    omega
  have hA := runFrom_no_timeout pre (setupXR init) hpreNoTO
  have hA_flag : (runFrom (setupXR init) pre).useGaze = false := hA.1.trans rfl
  have hA_list : (runFrom (setupXR init) pre).gazeControllers = [] := hA.2.trans rfl
  have hS_timer :
      (step (runFrom (setupXR init) pre) (XREvent.connected i)).timerArmed = false := rfl
  refine ⟨?_, ?_, ?_⟩
  · rw [runXR, runFrom_append]
    rfl
  · intro n
    rcases Nat.lt_or_ge pre.length n with hn | hn
    · rw [take_append_cons_of_lt pre post (t, XREvent.connected i) n hn, runXR,
        runFrom_append]
      have h2 : runFrom (runFrom (setupXR init) pre)
            ((t, XREvent.connected i) :: post.take (n - pre.length - 1)) =
          runFrom (step (runFrom (setupXR init) pre) (XREvent.connected i))
            (post.take (n - pre.length - 1)) := rfl
      rw [h2]
      exact ((runFrom_disarmed _ _ hS_timer).2.1).trans hA_flag
    · rw [List.take_append_of_le_length hn, runXR]
      have hsub : ∀ p ∈ pre.take n, p.2 ≠ XREvent.timeout :=
        fun p hp => hpreNoTO p (List.take_subset n pre hp)
      exact ((runFrom_no_timeout (pre.take n) (setupXR init) hsub).1).trans rfl
  · rw [runXR, runFrom_append]
    have h2 : runFrom (runFrom (setupXR init) pre) ((t, XREvent.connected i) :: post) =
        runFrom (step (runFrom (setupXR init) pre) (XREvent.connected i)) post := rfl
    rw [h2]
    exact ((runFrom_disarmed post _ hS_timer).2.2).trans hA_list

/-- Witness for C4, matching the spec's scenario: handle 0 never connects,
handle 1 connects at t = 500 ms, and a later disconnect occurs at 3000 ms;
the timer is cancelled at the connect, and `useGaze` stays false throughout
with no `GazeController` ever created. -/
theorem connected_cancels_timeout_witness :
    chron (([] : List TimedEvent) ++ ((500 : ℕ), XREvent.connected 1) ::
      [((3000 : ℕ), XREvent.disconnected 1)]) ∧
    timeoutsLate (([] : List TimedEvent) ++ ((500 : ℕ), XREvent.connected 1) ::
      [((3000 : ℕ), XREvent.disconnected 1)]) ∧
    ((500 : ℕ) < 2000) ∧
    ((runXR (([] : List TimedEvent) ++ [((500 : ℕ), XREvent.connected 1)])).timerArmed = false ∧
      (∀ n : ℕ, (runXR ((([] : List TimedEvent) ++ ((500 : ℕ), XREvent.connected 1) ::
          [((3000 : ℕ), XREvent.disconnected 1)]).take n)).useGaze = false) ∧
      (runXR (([] : List TimedEvent) ++ ((500 : ℕ), XREvent.connected 1) ::
          [((3000 : ℕ), XREvent.disconnected 1)])).gazeControllers = []) :=
  ⟨by decide, by decide, by decide,
    connected_cancels_timeout [] [((3000 : ℕ), XREvent.disconnected 1)] 500 1
      (by decide) (by decide) (by decide)⟩

lemma step_useGaze_mono (s : AppState) (e : XREvent) (h : s.useGaze = true) :
    (step s e).useGaze = true := by
  cases e <;> simp [step, h]
  split <;> simp [h]

lemma step_gaze_extend (s : AppState) (e : XREvent) :
    ∃ tail, (step s e).gazeControllers = s.gazeControllers ++ tail := by
  cases e with
  | selectStart i => exact ⟨[], by simp [step]⟩
  | selectEnd i => exact ⟨[], by simp [step]⟩
  | connected i => exact ⟨[], by simp [step]⟩
  | disconnected i => exact ⟨[], by simp [step]⟩
  | timeout =>
      by_cases h : s.timerArmed
      · exact ⟨[⟨ObjRef.scene, ObjRef.dummyCam⟩], by simp [step, h]⟩
      · exact ⟨[], by simp [step, h]⟩

lemma runFrom_useGaze_mono (tr : List TimedEvent) (s : AppState) (h : s.useGaze = true) :
    (runFrom s tr).useGaze = true := by
  induction tr generalizing s with
  | nil => exact h
  | cons p tl ih => exact ih (step s p.2) (step_useGaze_mono s p.2 h)

lemma runFrom_gaze_extend (tr : List TimedEvent) (s : AppState) :
    ∃ tail, (runFrom s tr).gazeControllers = s.gazeControllers ++ tail := by
  induction tr generalizing s with
  | nil => exact ⟨[], by simp [runFrom]⟩
  | cons p tl ih =>
      obtain ⟨t1, h1⟩ := step_gaze_extend s p.2
      obtain ⟨t2, h2⟩ := ih (step s p.2)
      exact ⟨t1 ++ t2, by rw [show runFrom s (p :: tl) = runFrom (step s p.2) tl from rfl,
        h2, h1, List.append_assoc]⟩

/-- C5: once the fallback flag `useGaze` is true, no sequence of later events
(controller connects included) ever clears it, and the fallback input path is
never removed: the list of constructed `GazeController` instances only ever
grows (every later state's list extends the current one). -/
theorem useGaze_write_once (s : AppState) (tr : List TimedEvent) (h : s.useGaze = true) :
    (runFrom s tr).useGaze = true ∧
    ∃ tail, (runFrom s tr).gazeControllers = s.gazeControllers ++ tail :=
  ⟨runFrom_useGaze_mono tr s h, runFrom_gaze_extend tr s⟩

/-- Witness for C5: from the state right after the fallback timer fired, a
controller connect at 2500 ms and a further timer event leave the flag true. -/
theorem useGaze_write_once_witness :
    (step (setupXR init) XREvent.timeout).useGaze = true ∧
    ((runFrom (step (setupXR init) XREvent.timeout)
        [((2500 : ℕ), XREvent.connected 0), ((3000 : ℕ), XREvent.timeout)]).useGaze = true ∧
      ∃ tail, (runFrom (step (setupXR init) XREvent.timeout)
          [((2500 : ℕ), XREvent.connected 0), ((3000 : ℕ), XREvent.timeout)]).gazeControllers =
        (step (setupXR init) XREvent.timeout).gazeControllers ++ tail) :=
  ⟨rfl, useGaze_write_once (step (setupXR init) XREvent.timeout)
    [((2500 : ℕ), XREvent.connected 0), ((3000 : ℕ), XREvent.timeout)] rfl⟩

/-- C6: setup allocates exactly two controller handles (indices 0 and 1,
independent of how many physical devices exist), and the registered handlers
behave as wired in `setupXR`: `selectstart` on handle `i` sets that handle's
`selectPressed` to true, `selectend` sets it to false, and `connected`
cancels the timeout timer. -/
theorem two_controllers_and_handlers (s : AppState) (i : Fin 2)
    (h : s.controllers.length = 2) :
    (setupXR init).controllers.length = 2 ∧
    (step s (XREvent.selectStart i)).controllers[(i : ℕ)]? =
      some { selectPressed := true } ∧
    (step s (XREvent.selectEnd i)).controllers[(i : ℕ)]? =
      some { selectPressed := false } ∧
    (step s (XREvent.connected i)).timerArmed = false := by
  have hi : (i : ℕ) < s.controllers.length := by
    rw [h]; exact i.isLt
  refine ⟨rfl, ?_, ?_, rfl⟩
  · show (s.controllers.set i { selectPressed := true })[(i : ℕ)]? = _
    rw [List.getElem?_set_self (by simpa using hi)]
  · show (s.controllers.set i { selectPressed := false })[(i : ℕ)]? = _
    rw [List.getElem?_set_self (by simpa using hi)]

/-- Witness for C6 at the state right after `setupXR`, handle 0. -/
theorem two_controllers_and_handlers_witness :
    ((setupXR init).controllers.length = 2) ∧
    ((setupXR init).controllers.length = 2 ∧
      (step (setupXR init) (XREvent.selectStart 0)).controllers[(0 : ℕ)]? =
        some { selectPressed := true } ∧
      (step (setupXR init) (XREvent.selectEnd 0)).controllers[(0 : ℕ)]? =
        some { selectPressed := false } ∧
      (step (setupXR init) (XREvent.connected 0)).timerArmed = false) :=
  ⟨rfl, two_controllers_and_handlers (setupXR init) 0 rfl⟩

/-- C8 counterexample: when the first glTF model load fails, the application
runs no error handler (none is passed to `loader.load` for the models in
`App.loadModels`), logs nothing, and — because every subsequent step is
chained inside the previous load's success callback — never reaches the
remaining model loads, `setupXR`, or the animation-loop registration. This
refutes the claim that every asset load failure is logged and that
subsequent setup steps still occur. -/
theorem load_failure_halts_setup :
    (appStartup ⟨false, true, true, true⟩).setupXRCalled = false ∧
    (appStartup ⟨false, true, true, true⟩).animationLoopSet = false ∧
    (appStartup ⟨false, true, true, true⟩).errorsLogged = [] :=
  ⟨rfl, rfl, rfl⟩

/-- C8 (amended): an environment HDR load failure is logged
(`console.error`) and otherwise ignored — the model chain and XR setup
proceed independently of it; a glTF model load failure, however, is neither
logged by the application nor recovered from: the success-chained
continuation (remaining model loads, `setupXR`, animation-loop registration)
runs exactly when all three model loads succeed. -/
theorem load_failure_behavior (o : LoadOutcome) :
    (appStartup o).envSet = o.hdrOk ∧
    (appStartup o).errorsLogged =
      (if o.hdrOk then [] else ["An error occurred setting the environment"]) ∧
    (appStartup o).setupXRCalled = (o.model1Ok && o.model2Ok && o.model3Ok) ∧
    (appStartup o).animationLoopSet = (o.model1Ok && o.model2Ok && o.model3Ok) := by
  obtain ⟨m1, m2, m3, hh⟩ := o
  cases m1 <;> cases m2 <;> cases m3 <;> cases hh <;> exact ⟨rfl, rfl, rfl, rfl⟩
